import Mathlib

/-!
Shallow embedding of the identity subsystem of the nuvho-hub-api backend:
the user model (models/User.js, MySQL variant), the registration controller
(controllers/authController.js), the login controller, and the two token
middlewares (middleware/auth.js `verifyToken` and the part_004 variant
`authMiddleware`).

Conventions:
- JavaScript `undefined`/missing optional body fields are modelled as
  `Option String` with `none`; JS string truthiness is `truthy`.
- MySQL string equality (`col = ?` under the default case-insensitive
  collation) is `sqlStrEq`.
- `bcrypt.hash`/`bcrypt.compare` are an external library; they are modelled
  by an abstract injective stand-in `bcryptHash` and the matching
  `bcryptCompare`, which preserves exactly the property the code relies on:
  compare succeeds iff the password equals the hashed one.
- `NOW()` is an explicit `now : Nat` parameter, in minutes (the only
  interval arithmetic in the code, cleanupOrphanedUsers, is in minutes).
- Network calls (Firebase createUser / verifyIdToken / jwt.verify) are
  oracle parameters: the value the awaited call resolves to in this request.
-/

namespace Nuvho

/-- JS truthiness of an optional string: `undefined`, `null` and `""` are falsy. -/
def truthy : Option String → Bool
  | none => false
  | some s => !s.isEmpty

/-- JS `a || b` on an optional string (falsy selects the default). -/
def jsOr (o : Option String) (dflt : String) : String :=
  match o with
  | none => dflt
  | some s => if s.isEmpty then dflt else s

/-- `toLowerCase()`, written over the character list so it evaluates by
kernel reduction. -/
def jsToLower (s : String) : String := ⟨s.data.map Char.toLower⟩

/-- The whitespace characters `trim()` removes (the ones occurring in the
inputs of this code base). -/
def isSpaceChar (c : Char) : Bool := c == ' ' || c == '\t' || c == '\n' || c == '\r'

/-- `trim()`, written over the character list. -/
def jsTrim (s : String) : String :=
  ⟨((s.data.dropWhile isSpaceChar).reverse.dropWhile isSpaceChar).reverse⟩

/-- `startsWith`, written over the character list. -/
def jsStartsWith (s p : String) : Bool := p.data.isPrefixOf s.data

/-- `substring(n)` for ASCII input, written over the character list. -/
def jsDrop (s : String) (n : Nat) : String := ⟨s.data.drop n⟩

/-- Helper for `split(' ')`: cut a character list at every space. -/
def splitSpAux : List Char → List Char → List (List Char)
  | [], acc => [acc.reverse]
  | c :: cs, acc =>
    if c == ' ' then acc.reverse :: splitSpAux cs [] else splitSpAux cs (c :: acc)

/-- JS `split(' ')`. -/
def jsSplitOnSpace (s : String) : List String := (splitSpAux s.data []).map (fun l => ⟨l⟩)

/-- `email.toLowerCase().trim()` as used for every email parameter. -/
def normEmail (e : String) : String := jsTrim (jsToLower e)

/-- MySQL `=` on string columns under the default case-insensitive collation. -/
def sqlStrEq (a b : String) : Bool := jsToLower a == jsToLower b

/-- Abstract stand-in for `bcrypt.hash` (external library). -/
def bcryptHash (pw : String) : String := "$2a$10$" ++ pw

/-- Abstract stand-in for `bcrypt.compare`: succeeds iff the plaintext
matches the one that was hashed. -/
def bcryptCompare (pw hash : String) : Bool := bcryptHash pw == hash

/-- One row of the `users` table (the columns the identity subsystem touches).
`firebaseUid` is the external subject id column `firebase_uid`. -/
structure UserRow where
  id : Nat
  email : String
  passwordHash : Option String
  firstName : String
  lastName : String
  displayName : String
  hotelName : String
  role : String
  isActive : Bool
  emailVerified : Bool
  authProvider : String
  firebaseUid : Option String
  isDeleted : Bool
  createdAt : Nat
  lastLogin : Option Nat
  loginCount : Nat
  deriving Repr, DecidableEq

/-- The `users` table plus the auto-increment counter. -/
structure Store where
  rows : List UserRow
  nextId : Nat
  deriving Repr, DecidableEq

/-- Errors thrown by the model layer, plus the TypeError raised when the
controller calls the undefined `User.delete`. -/
inductive JsErr where
  | requiredFields
  | userAlreadyExists
  | userNotFoundForUpdate
  | userNotFoundAfterUpdate
  | typeErrorNotAFunction
  deriving Repr, DecidableEq

/-- The argument object `userData` passed to `User.create`. -/
structure CreateData where
  email : Option String
  password : Option String
  firstName : Option String
  lastName : Option String
  displayName : Option String
  hotelName : Option String
  role : Option String
  deriving Repr, DecidableEq

/-- The source returns created/updated users with the `password` property
stripped off (`const (password: _, ...userWithoutPassword) = userInstance`). -/
def omitPassword (r : UserRow) : UserRow := { r with passwordHash := none }

namespace User

/-- `User.create` (models/User.js, MySQL variant, lines 116-201): validate
required fields, check `SELECT id, email FROM users WHERE email = ?`
(note: no `is_deleted` filter), hash the password when present, INSERT with
`is_active = TRUE`, `auth_provider` set to the literal email,
`email_verified = FALSE` and
no firebase uid, and return the created row without the password. -/
def create (d : CreateData) (now : Nat) (s : Store) : Except JsErr (Store × UserRow) :=
  if !(truthy d.email && truthy d.firstName && truthy d.lastName) then
    .error .requiredFields
  else
    let key := normEmail (d.email.getD "")
    if (s.rows.filter (fun r => sqlStrEq r.email key)).isEmpty then
      let hashed : Option String :=
        match d.password with
        | some p => if (jsTrim p).length > 0 then some (bcryptHash (jsTrim p)) else none
        | none => none
      let finalDisplayName :=
        jsOr d.displayName ((d.firstName.getD "") ++ " " ++ (d.lastName.getD ""))
      let row : UserRow :=
        { id := s.nextId
          email := key
          passwordHash := hashed
          firstName := jsTrim (d.firstName.getD "")
          lastName := jsTrim (d.lastName.getD "")
          displayName := jsTrim finalDisplayName
          hotelName := d.hotelName.getD ""
          role := d.role.getD "hoteluser"
          isActive := true
          emailVerified := false
          authProvider := "email"
          firebaseUid := none
          isDeleted := false
          createdAt := now
          lastLogin := none
          loginCount := 0 }
      .ok ({ rows := s.rows ++ [row], nextId := s.nextId + 1 }, omitPassword row)
    else
      .error .userAlreadyExists

/-- The row mutation of `User.updateFirebaseUid`: `SET firebase_uid = ?`,
`auth_provider` set to the literal firebase, `email_verified = TRUE`. -/
def linkRow (uid : String) (r : UserRow) : UserRow :=
  { r with firebaseUid := some uid, authProvider := "firebase", emailVerified := true }

/-- `User.updateFirebaseUid` (lines 204-248): `UPDATE users SET firebase_uid = ?`
plus `auth_provider` set to the literal firebase and `email_verified = TRUE`,
all `WHERE id = ?` — the WHERE
clause matches on `id` only (there is no `firebase_uid IS NULL` condition),
throwing only when `affectedRows = 0`; then re-fetch the row. -/
def updateFirebaseUid (userId : Nat) (uid : String) (s : Store) :
    Except JsErr (Store × UserRow) :=
  if (s.rows.filter (fun r => r.id == userId)).isEmpty then
    .error .userNotFoundForUpdate
  else
    match (s.rows.map (fun r => if r.id == userId then linkRow uid r else r)).find?
        (fun r => r.id == userId) with
    | some r =>
      .ok ({ s with rows := s.rows.map (fun r => if r.id == userId then linkRow uid r else r) },
        omitPassword r)
    | none => .error .userNotFoundAfterUpdate

/-- `User.findByEmail` (lines 251-273): `WHERE email = ? AND is_active = TRUE
AND is_deleted = FALSE`, parameter lower-cased and trimmed. -/
def findByEmail (email : String) (s : Store) : Option UserRow :=
  s.rows.find? (fun r => sqlStrEq r.email (normEmail email) && r.isActive && !r.isDeleted)

/-- `User.findById` (lines 276-298): `WHERE id = ? AND is_active = TRUE AND
is_deleted = FALSE`. -/
def findById (id : Nat) (s : Store) : Option UserRow :=
  s.rows.find? (fun r => r.id == id && r.isActive && !r.isDeleted)

/-- `User.findByFirebaseUid` (lines 301-325): returns null for a falsy uid,
else `WHERE firebase_uid = ? AND is_active = TRUE AND is_deleted = FALSE`. -/
def findByFirebaseUid (uid : String) (s : Store) : Option UserRow :=
  if uid.isEmpty then none
  else
    s.rows.find? (fun r =>
      (match r.firebaseUid with
       | some v => sqlStrEq v uid
       | none => false) && r.isActive && !r.isDeleted)

/-- `User.validatePassword` (lines 328-339): false when either the stored
hash or the supplied password is falsy, else `bcrypt.compare`. -/
def validatePassword (u : UserRow) (password : String) : Bool :=
  match u.passwordHash with
  | none => false
  | some h => if h.isEmpty || password.isEmpty then false else bcryptCompare password h

/-- `User.updateLastLogin` (lines 411-427): `SET last_login = NOW(),
login_count = login_count + 1 WHERE id = ?`. -/
def updateLastLogin (userId : Nat) (now : Nat) (s : Store) : Store :=
  { s with
    rows := s.rows.map (fun r =>
      if r.id == userId then { r with lastLogin := some now, loginCount := r.loginCount + 1 }
      else r) }

/-- The WHERE clause of `User.cleanupOrphanedUsers`: `firebase_uid IS NULL AND
`auth_provider` equal to the literal email `AND created_at < DATE_SUB(NOW(),
INTERVAL ? MINUTE)`
AND is_deleted = FALSE`. -/
def orphanMatch (olderThanMinutes now : Nat) (r : UserRow) : Bool :=
  r.firebaseUid.isNone && sqlStrEq r.authProvider "email" &&
    decide (r.createdAt + olderThanMinutes < now) && !r.isDeleted

/-- `User.cleanupOrphanedUsers` (lines 475-504): soft-delete
(`SET is_deleted = TRUE`) every row matched by `orphanMatch` and return
`affectedRows`. -/
def cleanupOrphanedUsers (olderThanMinutes now : Nat) (s : Store) : Store × Nat :=
  let matched := s.rows.filter (orphanMatch olderThanMinutes now)
  ({ s with
     rows := s.rows.map (fun r =>
       if orphanMatch olderThanMinutes now r then { r with isDeleted := true } else r) },
   matched.length)

end User

/-- The claims of the locally signed JWT (`jwt.sign({id, email, role}, ...)`
in controllers/authController.js `generateToken`). -/
structure JwtPayload where
  id : Nat
  email : String
  role : String
  deriving Repr, DecidableEq

/-- `generateToken` (controllers/authController.js lines 8-18). -/
def generateToken (u : UserRow) : JwtPayload :=
  { id := u.id, email := u.email, role := u.role }

/-- The JSON body the controllers send, with the fields the identity
endpoints use; absent fields are `none`. -/
structure HttpResponse where
  status : Nat
  success : Bool
  message : String
  user : Option UserRow
  token : Option JwtPayload
  firebaseUid : Option String
  flow : Option String
  warning : Option String
  deriving Repr, DecidableEq

/-- What the awaited `firebaseAdmin.createUser` resolves to
(controllers/authController.js lines 30-57): it never rejects — failures are
caught internally and returned as `{success: false, error, code}`, where
`code` may be undefined. -/
inductive FbCreateResult where
  | success (uid : String)
  | failure (code : Option String) (msg : String)
  deriving Repr, DecidableEq

/-- The body of `POST /register`. -/
structure RegisterBody where
  email : Option String
  password : Option String
  firstName : Option String
  lastName : Option String
  displayName : Option String
  hotelName : Option String
  role : Option String
  skipFirebase : Bool
  deriving Repr, DecidableEq

/-- The `responseMessage` map for the MySQL-only flows
(controllers/authController.js lines 220-225). -/
def responseMessage (flow : String) : String :=
  if flow == "mysql-only" then "User registered successfully (MySQL only)"
  else if flow == "mysql-only-firebase-failed" then
    "User registered successfully (Firebase backup failed)"
  else if flow == "mysql-only-firebase-error" then
    "User registered successfully (Firebase error occurred)"
  else if flow == "mysql-only-firebase-rollback" then
    "User registered successfully (Firebase integration issue resolved)"
  else ""

/-- The final 201 response of the MySQL-only flows
(controllers/authController.js lines 217-235). -/
def mysqlOnlyResponse (u : UserRow) (flow : String) : HttpResponse :=
  { status := 201
    success := true
    message := responseMessage flow
    user := some u
    token := some (generateToken u)
    firebaseUid := none
    flow := some flow
    warning := if flow == "mysql-only" then none else some "Firebase authentication not available" }

/-- The responses of the outer catch of `register`
(controllers/authController.js lines 237-252). -/
def registerCatchResponse (e : JsErr) : HttpResponse :=
  if e = .userAlreadyExists then
    { status := 409, success := false, message := "User with this email already exists"
      user := none, token := none, firebaseUid := none, flow := none, warning := none }
  else
    { status := 500, success := false, message := "Server error during registration"
      user := none, token := none, firebaseUid := none, flow := none, warning := none }

/-- The password guard of `register`: `!skipFirebase && (!password ||
password.length < 6)` — an absent or empty password has length 0. -/
def passwordTooShort (p : Option String) : Bool :=
  match p with
  | none => true
  | some s => decide (s.length < 6)

/-- `register` (controllers/authController.js lines 101-253).

Oracle parameters stand for the outcome of the awaited external calls in
this request: `fbAvailable` is `firebaseAdmin !== null`; `fbCreate` is what
`firebaseAdmin.createUser` resolves to; `linkFault` injects a store-level
rejection of `await User.updateFirebaseUid` (e.g. a lost connection), which
the code handles in `catch (updateError)`; when `linkFault` is false the
deterministic in-memory semantics of `updateFirebaseUid` applies.

The third component of the result collects the subject ids passed to
`firebaseAdmin.deleteUser` (which never rejects: it catches internally).

Note on the `email-exists` branch (lines 196-203): the source calls
`await User.delete(mysqlUser.id)` before returning 409, but the User model
defines no static `delete`, so the call throws
`TypeError: User.delete is not a function`; the throw happens inside the
`try` opened at line 151 and is caught by `catch (firebaseError)` at line
208, which sets the flow to `mysql-only-firebase-error` and falls through to
the final 201 response. The 409 return is unreachable. -/
def register (fbAvailable : Bool) (fbCreate : FbCreateResult) (linkFault : Bool)
    (body : RegisterBody) (now : Nat) (s : Store) :
    Store × HttpResponse × List String :=
  if !(truthy body.email && truthy body.firstName && truthy body.lastName) then
    (s, { status := 400, success := false
          message := "Email, first name, and last name are required"
          user := none, token := none, firebaseUid := none, flow := none, warning := none }, [])
  else if !body.skipFirebase && passwordTooShort body.password then
    (s, { status := 400, success := false
          message := "Password must be at least 6 characters long"
          user := none, token := none, firebaseUid := none, flow := none, warning := none }, [])
  else
    let userData : CreateData :=
      { email := body.email
        password := body.password
        firstName := body.firstName
        lastName := body.lastName
        displayName := some (jsOr body.displayName
          ((body.firstName.getD "") ++ " " ++ (body.lastName.getD "")))
        hotelName := body.hotelName
        role := some (body.role.getD "hoteluser") }
    match User.create userData now s with
    | .error e => (s, registerCatchResponse e, [])
    | .ok (s1, mysqlUser) =>
      if fbAvailable && !body.skipFirebase then
        match fbCreate with
        | .success uid =>
          if linkFault then
            (s1, mysqlOnlyResponse mysqlUser "mysql-only-firebase-rollback", [uid])
          else
            match User.updateFirebaseUid mysqlUser.id uid s1 with
            | .ok (s2, updatedUser) =>
              (s2,
               { status := 201, success := true
                 message := "User registered successfully with complete authentication"
                 user := some updatedUser
                 token := some (generateToken updatedUser)
                 firebaseUid := some uid
                 flow := some "mysql-firebase-complete"
                 warning := none }, [])
            | .error _ =>
              (s1, mysqlOnlyResponse mysqlUser "mysql-only-firebase-rollback", [uid])
        | .failure code _ =>
          if code == some "email-exists" then
            (s1, mysqlOnlyResponse mysqlUser "mysql-only-firebase-error", [])
          else
            (s1, mysqlOnlyResponse mysqlUser "mysql-only-firebase-failed", [])
      else
        (s1, mysqlOnlyResponse mysqlUser "mysql-only", [])

/-- `login` (controllers/authController.js lines 355-405). The two failure
responses are written as two separate literals, exactly as the source has
two separate `res.status(401).json(...)` calls. -/
def login (email password : Option String) (now : Nat) (s : Store) :
    Store × HttpResponse :=
  if !(truthy email && truthy password) then
    (s, { status := 400, success := false, message := "Email and password are required"
          user := none, token := none, firebaseUid := none, flow := none, warning := none })
  else
    match User.findByEmail (email.getD "") s with
    | none =>
      (s, { status := 401, success := false, message := "Invalid credentials"
            user := none, token := none, firebaseUid := none, flow := none, warning := none })
    | some u =>
      if !(User.validatePassword u (password.getD "")) then
        (s, { status := 401, success := false, message := "Invalid credentials"
              user := none, token := none, firebaseUid := none, flow := none, warning := none })
      else
        (User.updateLastLogin u.id now s,
         { status := 200, success := true, message := "Login successful"
           user := some u, token := some (generateToken u)
           firebaseUid := none, flow := none, warning := none })

/-- The externally observable steps a middleware takes while handling one
request: each verification call and each store lookup, in order. -/
inductive Attempt where
  | fbVer
  | jwtVer
  | lookupById
  | lookupByFbUid
  deriving Repr, DecidableEq

/-- What `verifyFirebaseToken` resolves to on success (a decoded Firebase
token; `role` is a custom claim that may be absent). -/
structure FbDecoded where
  uid : String
  email : String
  role : Option String
  deriving Repr, DecidableEq

/-- The `req.user` object set by `verifyToken` (middleware/auth.js): the
Firebase branch builds, from the token alone, an object with id the token
uid, the token email, and role defaulted to hoteladmin when the token
carries none (plus a firebaseUser flag); the JWT branch stores the decoded
payload. -/
inductive MwUser where
  | firebase (uid email role : String)
  | jwt (p : JwtPayload)
  deriving Repr, DecidableEq

/-- The outcome of a middleware: `next()` with a `req.user`, or an error
response. -/
inductive MwResult where
  | ok (u : MwUser)
  | denied (status : Nat) (message : String)
  deriving Repr, DecidableEq

/-- `authHeader.split(' ')[1]`. -/
def extractBearer (h : String) : Option String := (jsSplitOnSpace h)[1]?

/-- `verifyToken` (middleware/auth.js lines 6-72). Oracles: `fbv` is what
`verifyFirebaseToken` resolves to (`none` = the await rejected), `jv` is
`jwt.verify` (`none` = it threw). The middleware takes no store parameter
because the source performs no store lookup. The second component is the
ordered list of verification attempts. -/
def verifyToken (fbv : String → Option FbDecoded) (jv : String → Option JwtPayload)
    (authHeader : Option String) : MwResult × List Attempt :=
  match authHeader with
  | none => (.denied 401 "No token, authorization denied", [])
  | some h =>
    match extractBearer h with
    | none => (.denied 401 "No token, authorization denied", [])
    | some t =>
      if t.isEmpty then (.denied 401 "No token, authorization denied", [])
      else
        match fbv t with
        | some d => (.ok (.firebase d.uid d.email (jsOr d.role "hoteladmin")), [.fbVer])
        | none =>
          match jv t with
          | some p => (.ok (.jwt p), [.fbVer, .jwtVer])
          | none => (.denied 401 "Token is not valid", [.fbVer, .jwtVer])

/-- The `req.user` object set by the part_004 `authMiddleware`: the dev
bypass and the Firebase branch build `{id, email, role, firebaseUid?}`; the
JWT branch stores the decoded payload (same three fields, no firebaseUid). -/
structure AmUser where
  id : Nat
  email : String
  role : String
  firebaseUid : Option String
  deriving Repr, DecidableEq

/-- The outcome of `authMiddleware`: `next()` with a `req.user`, or an error
response. -/
inductive AmResult where
  | ok (u : AmUser)
  | denied (status : Nat) (message : String)
  deriving Repr, DecidableEq

/-- `authMiddleware` (the middleware/auth.js variant in part_004, lines
16-112). Oracles: `jv` is `jwt.verify`; `fbAvailable` is
`firebaseAdmin !== null`; `fbv` is what `firebaseAdmin.auth().verifyIdToken`
resolves to (the uid). The store is consulted via `User.findById` (JWT
branch re-check) and `User.findByFirebaseUid`. The second component is the
ordered list of verification attempts and store lookups. -/
def authMiddleware (env : String) (jv : String → Option JwtPayload)
    (fbAvailable : Bool) (fbv : String → Option String) (s : Store)
    (authHeader : Option String) : AmResult × List Attempt :=
  match authHeader with
  | none => (.denied 401 "Access token required", [])
  | some h =>
    if !(jsStartsWith h "Bearer ") then (.denied 401 "Access token required", [])
    else
      let token := jsDrop h 7
      if env == "development" && jsStartsWith token "dev-test-token-" then
        (.ok { id := 1, email := "admin@nuvho.com", role := "superadmin", firebaseUid := none },
         [])
      else
        match jv token with
        | some d =>
          match User.findById d.id s with
          | none => (.denied 401 "User account not found or inactive", [.jwtVer, .lookupById])
          | some u =>
            if !u.isActive then
              (.denied 401 "User account not found or inactive", [.jwtVer, .lookupById])
            else
              (.ok { id := d.id, email := d.email, role := d.role, firebaseUid := none },
               [.jwtVer, .lookupById])
        | none =>
          if fbAvailable then
            match fbv token with
            | some uid =>
              match User.findByFirebaseUid uid s with
              | none =>
                (.denied 401 "User not found for Firebase token",
                 [.jwtVer, .fbVer, .lookupByFbUid])
              | some u =>
                (.ok { id := u.id, email := u.email, role := u.role, firebaseUid := some uid },
                 [.jwtVer, .fbVer, .lookupByFbUid])
            | none => (.denied 401 "Invalid authentication token", [.jwtVer, .fbVer])
          else (.denied 401 "Invalid authentication token", [.jwtVer])

/-! Theorems about the claims. -/

/-- Shared helper: after a sweep has marked the matching rows deleted, no row
of the resulting table matches the orphan predicate any more. -/
lemma orphan_filter_after_mark (d now : Nat) (l : List UserRow) :
    (l.map (fun r => if User.orphanMatch d now r then { r with isDeleted := true } else r)).filter
        (User.orphanMatch d now) = [] := by
  induction l with
  | nil => rfl
  | cons r rs ih =>
    simp only [List.map_cons, List.filter_cons]
    cases hm : User.orphanMatch d now r with
    | false => simp [hm, ih]
    | true =>
      have hmarked : User.orphanMatch d now { r with isDeleted := true } = false := by
        simp [User.orphanMatch]
      simp [hm, hmarked, ih]

/-- Claim C1 (code bug, evaluation at the failing input): when the external
create fails with kind AlreadyExists (Firebase code email-exists), the call
does NOT return 409 and the primary record is NOT deleted: the controller
calls the undefined `User.delete`, the resulting TypeError is swallowed by
the Firebase catch block, and the call returns 201 with flow
mysql-only-firebase-error while `findByEmail` still finds the record —
contrary to the claim that the record no longer exists and the result is a
409 ConflictError. -/
theorem register_emailExists_record_survives :
    ((register true (.failure (some "email-exists") "Email already exists in Firebase")
        false
        { email := some "a@x.com", password := some "secret1", firstName := some "A",
          lastName := some "B", displayName := none, hotelName := none, role := none,
          skipFirebase := false } 0 { rows := [], nextId := 1 }).2.1.status = 201)
    ∧ ((register true (.failure (some "email-exists") "Email already exists in Firebase")
        false
        { email := some "a@x.com", password := some "secret1", firstName := some "A",
          lastName := some "B", displayName := none, hotelName := none, role := none,
          skipFirebase := false } 0 { rows := [], nextId := 1 }).2.1.flow
        = some "mysql-only-firebase-error")
    ∧ ((User.findByEmail "a@x.com"
        (register true (.failure (some "email-exists") "Email already exists in Firebase")
          false
          { email := some "a@x.com", password := some "secret1", firstName := some "A",
            lastName := some "B", displayName := none, hotelName := none, role := none,
            skipFirebase := false } 0 { rows := [], nextId := 1 }).1).isSome = true) :=
  ⟨rfl, rfl, rfl⟩

/-- Claim C2 (code bug, evaluation at the failing input): for a bearer token
the external provider verifies whose subject (sub-1) has no linked local
user — the store is empty, `findByFirebaseUid` returns none — `verifyToken`
does not fail with a not-found error: it performs no store lookup at all
(its attempt trace is just the Firebase verification) and resolves the
request to a fabricated identity whose role is the default hoteladmin taken
from nowhere in the store. -/
theorem verifyToken_fabricates_identity :
    (User.findByFirebaseUid "sub-1" { rows := [], nextId := 1 } = none)
    ∧ (verifyToken (fun _ => some { uid := "sub-1", email := "s@x.com", role := none })
        (fun _ => none) (some "Bearer exttoken")
        = (.ok (.firebase "sub-1" "s@x.com" "hoteladmin"), [.fbVer])) :=
  ⟨rfl, rfl⟩

/-- Claim C3 (counterexample): `updateFirebaseUid` on a user whose
firebase uid is already set (old-sub) does not fail and does not leave the
record unchanged — it succeeds and overwrites the linkage with new-sub,
refuting the claim that the update applies only when the subject id is
still NULL. -/
theorem updateFirebaseUid_overwrites_existing_linkage :
    (User.updateFirebaseUid 1 "new-sub"
        { rows := [{ id := 1, email := "a@x.com", passwordHash := none, firstName := "A",
                     lastName := "B", displayName := "A B", hotelName := "", role := "hoteluser",
                     isActive := true, emailVerified := true, authProvider := "firebase",
                     firebaseUid := some "old-sub", isDeleted := false, createdAt := 0,
                     lastLogin := none, loginCount := 0 }], nextId := 2 }).map
        (fun p => (p.2.firebaseUid, p.2.authProvider))
      = .ok (some "new-sub", "firebase") :=
  rfl

/-- Claim C3 (amended): the linkage update is unconditional on the linkage
state: for every store and every user id that exists in it — linked or not —
`updateFirebaseUid` succeeds and the returned row carries the new subject id
and authProvider firebase; it fails only when no row has that id. -/
theorem updateFirebaseUid_unconditional (s : Store) (i : Nat) (uid : String)
    (hr : ∃ r ∈ s.rows, r.id = i) :
    ∃ s' r', User.updateFirebaseUid i uid s = .ok (s', r')
      ∧ r'.firebaseUid = some uid ∧ r'.authProvider = "firebase" := by
  obtain ⟨r0, hmem, hid⟩ := hr
  have hne : s.rows.filter (fun r => r.id == i) ≠ [] := by
    intro hnil
    have := List.filter_eq_nil_iff.mp hnil r0 hmem
    simp [hid] at this
  have hemp : (s.rows.filter (fun r => r.id == i)).isEmpty = false :=
    List.isEmpty_eq_false.mpr hne
  have hmem' : User.linkRow uid r0
      ∈ s.rows.map (fun r => if r.id == i then User.linkRow uid r else r) := by
    have heq : (fun r => if r.id == i then User.linkRow uid r else r) r0
        = User.linkRow uid r0 := by simp [hid]
    rw [← heq]
    exact List.mem_map_of_mem _ hmem
  cases hfind : (s.rows.map (fun r => if r.id == i then User.linkRow uid r else r)).find?
      (fun r => r.id == i) with
  | none =>
    exfalso
    have := List.find?_eq_none.mp hfind _ hmem'
    simp [User.linkRow, hid] at this
  | some x =>
    have hx := List.find?_some hfind
    have hxmem := List.mem_of_find?_eq_some hfind
    obtain ⟨r1, hr1mem, hr1eq⟩ := List.mem_map.mp hxmem
    have heq : User.updateFirebaseUid i uid s
        = .ok ({ s with rows := s.rows.map (fun r => if r.id == i then User.linkRow uid r else r) },
            omitPassword x) := by
      unfold User.updateFirebaseUid
      simp only [hemp, Bool.false_eq_true, if_false, hfind]
    by_cases h1 : r1.id = i
    · have hx2 : x = User.linkRow uid r1 := by rw [← hr1eq]; simp [h1]
      subst hx2
      exact ⟨_, _, heq, by simp [omitPassword, User.linkRow], by simp [omitPassword, User.linkRow]⟩
    · exfalso
      have hx3 : x = r1 := by rw [← hr1eq]; simp [h1]
      subst hx3
      simp [h1] at hx

/-- Witness for C3 (amended), at a store whose only row is already linked to
old-sub: the update still succeeds and rewrites the linkage to new-sub. -/
theorem updateFirebaseUid_unconditional_witness :
    (∃ r ∈ (Store.mk [⟨1, "a@x.com", none, "A", "B", "A B", "", "hoteluser", true, true,
        "firebase", some "old-sub", false, 0, none, 0⟩] 2).rows, r.id = 1)
    ∧ ∃ s' r', User.updateFirebaseUid 1 "new-sub"
          (Store.mk [⟨1, "a@x.com", none, "A", "B", "A B", "", "hoteluser", true, true,
            "firebase", some "old-sub", false, 0, none, 0⟩] 2) = .ok (s', r')
        ∧ r'.firebaseUid = some "new-sub" ∧ r'.authProvider = "firebase" :=
  ⟨⟨⟨1, "a@x.com", none, "A", "B", "A B", "", "hoteluser", true, true,
      "firebase", some "old-sub", false, 0, none, 0⟩, by simp, rfl⟩,
   updateFirebaseUid_unconditional _ 1 "new-sub"
     ⟨⟨1, "a@x.com", none, "A", "B", "A B", "", "hoteluser", true, true,
        "firebase", some "old-sub", false, 0, none, 0⟩, by simp, rfl⟩⟩

/-- Claim C4 (counterexample): with both verification oracles succeeding on
the same token, `verifyToken` resolves via the external (Firebase) path and
its attempt trace is exactly the single external attempt — the local check
would have succeeded but was never tried, refuting the claim that local
verification is attempted first and the external one only if it fails. -/
theorem verifyToken_attempts_external_first :
    verifyToken (fun _ => some { uid := "fb-sub", email := "u@x.com", role := some "member" })
        (fun _ => some { id := 7, email := "u@x.com", role := "member" })
        (some "Bearer tok")
      = (.ok (.firebase "fb-sub" "u@x.com" "member"), [.fbVer]) :=
  rfl

/-- Claim C4 (amended): `verifyToken` attempts external-provider (Firebase)
verification first, and local JWT verification only if the external check
fails; if both fail the result is a 401 invalid-token error. -/
theorem verifyToken_external_first_local_fallback
    (fbv : String → Option FbDecoded) (jv : String → Option JwtPayload) (h t : String)
    (hx : extractBearer h = some t) (ht : t.isEmpty = false) :
    ((verifyToken fbv jv (some h)).2.head? = some .fbVer)
    ∧ (Attempt.jwtVer ∈ (verifyToken fbv jv (some h)).2 ↔ fbv t = none)
    ∧ (fbv t = none → jv t = none →
        (verifyToken fbv jv (some h)).1 = .denied 401 "Token is not valid") := by
  unfold verifyToken
  simp only [hx, ht, Bool.false_eq_true, if_false]
  cases hf : fbv t with
  | some d => simp [hf]
  | none =>
    cases hj : jv t with
    | some p => simp [hf, hj]
    | none => simp [hf, hj]

/-- Witness for C4 (amended), with both oracles failing on a concrete
token: the first attempt is the external one and the result is the 401
invalid-token error. -/
theorem verifyToken_external_first_local_fallback_witness :
    (extractBearer "Bearer tokX" = some "tokX") ∧ ("tokX".isEmpty = false)
    ∧ (((verifyToken (fun _ => none) (fun _ => none) (some "Bearer tokX")).2.head?
          = some .fbVer)
      ∧ (Attempt.jwtVer ∈ (verifyToken (fun _ => none) (fun _ => none)
            (some "Bearer tokX")).2 ↔ (none : Option FbDecoded) = none)
      ∧ ((none : Option FbDecoded) = none → (none : Option JwtPayload) = none →
          (verifyToken (fun _ => none) (fun _ => none) (some "Bearer tokX")).1
            = .denied 401 "Token is not valid")) :=
  ⟨rfl, rfl, verifyToken_external_first_local_fallback
    (fun _ => none) (fun _ => none) "Bearer tokX" "tokX" rfl rfl⟩

/-- Claim C5 (confirmed): for every Register call in which the external
create succeeds (subject id `uid`) but the subsequent linkage update of the
primary record fails, the just-created external identity is deleted (the
deleteUser trace is exactly that uid) and the call still completes with 201,
flow mysql-only-firebase-rollback, returning a user whose authProvider is
the local value email and whose firebase uid is unset. -/
theorem register_linkFailure_rollback (body : RegisterBody) (uid : String) (now : Nat)
    (s : Store)
    (he : truthy body.email = true) (hf : truthy body.firstName = true)
    (hl : truthy body.lastName = true) (hs : body.skipFirebase = false)
    (hp : passwordTooShort body.password = false)
    (hu : s.rows.filter (fun r => sqlStrEq r.email (normEmail (body.email.getD ""))) = []) :
    ∃ u : UserRow,
      (register true (.success uid) true body now s).2.1.status = 201
      ∧ (register true (.success uid) true body now s).2.1.flow
          = some "mysql-only-firebase-rollback"
      ∧ (register true (.success uid) true body now s).2.2 = [uid]
      ∧ (register true (.success uid) true body now s).2.1.user = some u
      ∧ u.authProvider = "email" ∧ u.firebaseUid = none := by
  unfold register
  unfold User.create
  simp [he, hf, hl, hs, hp, hu, mysqlOnlyResponse, omitPassword]

/-- Witness for C5, at a concrete registration over an empty store with the
linkage update failing. -/
theorem register_linkFailure_rollback_witness :
    (truthy (some "a@x.com") = true) ∧ (truthy (some "A") = true)
    ∧ (truthy (some "B") = true) ∧ (false = false)
    ∧ (passwordTooShort (some "secret1") = false)
    ∧ ((Store.mk [] 1).rows.filter
        (fun r => sqlStrEq r.email (normEmail ((some "a@x.com").getD ""))) = [])
    ∧ ∃ u : UserRow,
      (register true (.success "fb-uid-1") true
        { email := some "a@x.com", password := some "secret1", firstName := some "A",
          lastName := some "B", displayName := none, hotelName := none, role := none,
          skipFirebase := false } 0 (Store.mk [] 1)).2.1.status = 201
      ∧ (register true (.success "fb-uid-1") true
        { email := some "a@x.com", password := some "secret1", firstName := some "A",
          lastName := some "B", displayName := none, hotelName := none, role := none,
          skipFirebase := false } 0 (Store.mk [] 1)).2.1.flow
          = some "mysql-only-firebase-rollback"
      ∧ (register true (.success "fb-uid-1") true
        { email := some "a@x.com", password := some "secret1", firstName := some "A",
          lastName := some "B", displayName := none, hotelName := none, role := none,
          skipFirebase := false } 0 (Store.mk [] 1)).2.2 = ["fb-uid-1"]
      ∧ (register true (.success "fb-uid-1") true
        { email := some "a@x.com", password := some "secret1", firstName := some "A",
          lastName := some "B", displayName := none, hotelName := none, role := none,
          skipFirebase := false } 0 (Store.mk [] 1)).2.1.user = some u
      ∧ u.authProvider = "email" ∧ u.firebaseUid = none :=
  ⟨rfl, rfl, rfl, rfl, rfl, rfl,
   register_linkFailure_rollback
     { email := some "a@x.com", password := some "secret1", firstName := some "A",
       lastName := some "B", displayName := none, hotelName := none, role := none,
       skipFirebase := false } "fb-uid-1" 0 (Store.mk [] 1) rfl rfl rfl rfl rfl rfl⟩

/-- Claim C6 (counterexample): a store whose only row carries the email and
is soft-deleted (isDeleted true) still makes `User.create` reject with the
already-exists conflict — refuting the claim that an email held only by
soft-deleted records can be registered again. -/
theorem create_rejects_email_of_soft_deleted_user :
    ((⟨3, "a@x.com", none, "Old", "User", "Old User", "", "hoteluser", false, false,
        "email", none, true, 0, none, 0⟩ : UserRow).isDeleted = true)
    ∧ (User.create
        { email := some "a@x.com", password := some "secret1", firstName := some "A",
          lastName := some "B", displayName := none, hotelName := none, role := none } 5
        { rows := [⟨3, "a@x.com", none, "Old", "User", "Old User", "", "hoteluser", false, false,
                    "email", none, true, 0, none, 0⟩], nextId := 4 }
        = .error .userAlreadyExists) :=
  ⟨rfl, rfl⟩

/-- Claim C6 (amended): `User.create` rejects with the already-exists
conflict exactly when ANY row with the same email (compared
case-insensitively after normalisation) exists in the table — the
uniqueness check has no isDeleted (nor isActive) filter, so emails of
soft-deleted records cannot be registered again. -/
theorem create_conflict_iff_matching_row (d : CreateData) (now : Nat) (s : Store)
    (he : truthy d.email = true) (hf : truthy d.firstName = true)
    (hl : truthy d.lastName = true) :
    User.create d now s = .error .userAlreadyExists
      ↔ ∃ r ∈ s.rows, sqlStrEq r.email (normEmail (d.email.getD "")) = true := by
  unfold User.create
  simp only [he, hf, hl, Bool.and_self, Bool.not_true, Bool.false_eq_true, if_false]
  cases hemp : (s.rows.filter (fun r => sqlStrEq r.email (normEmail (d.email.getD "")))).isEmpty with
  | true =>
    simp only [hemp, if_true]
    constructor
    · intro hcontr
      exact absurd hcontr (by simp)
    · intro ⟨r, hrmem, hrq⟩
      exfalso
      have hnil := List.isEmpty_iff.mp hemp
      have := List.filter_eq_nil_iff.mp hnil r hrmem
      simp [hrq] at this
  | false =>
    simp only [hemp, Bool.false_eq_true, if_false]
    constructor
    · intro _
      have hne := List.isEmpty_eq_false.mp hemp
      cases hflt : s.rows.filter (fun r => sqlStrEq r.email (normEmail (d.email.getD ""))) with
      | nil => exact absurd hflt hne
      | cons a l =>
        have hamem : a ∈ s.rows.filter (fun r => sqlStrEq r.email (normEmail (d.email.getD ""))) := by
          rw [hflt]; exact List.mem_cons_self a l
        exact ⟨a, (List.mem_filter.mp hamem).1, (List.mem_filter.mp hamem).2⟩
    · intro _
      trivial

/-- Witness for C6 (amended), at the store whose only row is soft-deleted and
carries the email: the conflict characterisation holds there. -/
theorem create_conflict_iff_matching_row_witness :
    (truthy (some "a@x.com") = true) ∧ (truthy (some "A") = true) ∧ (truthy (some "B") = true)
    ∧ (User.create
        { email := some "a@x.com", password := some "secret1", firstName := some "A",
          lastName := some "B", displayName := none, hotelName := none, role := none } 5
        (Store.mk [⟨3, "a@x.com", none, "Old", "User", "Old User", "", "hoteluser", false,
          false, "email", none, true, 0, none, 0⟩] 4)
        = .error .userAlreadyExists
      ↔ ∃ r ∈ (Store.mk [⟨3, "a@x.com", none, "Old", "User", "Old User", "", "hoteluser",
          false, false, "email", none, true, 0, none, 0⟩] 4).rows,
          sqlStrEq r.email (normEmail ((some "a@x.com").getD "")) = true) :=
  ⟨rfl, rfl, rfl,
   create_conflict_iff_matching_row
     { email := some "a@x.com", password := some "secret1", firstName := some "A",
       lastName := some "B", displayName := none, hotelName := none, role := none } 5
     (Store.mk [⟨3, "a@x.com", none, "Old", "User", "Old User", "", "hoteluser", false,
       false, "email", none, true, 0, none, 0⟩] 4) rfl rfl rfl⟩

/-- Claim C7 (counterexample): the store holds a single soft-deleted user
with id 7 (so `findById` returns none for them), yet `verifyToken` — which
takes no store at all — resolves a locally signed JWT for that user
successfully, refuting the claim that deleted or inactive users never
resolve through token verification. -/
theorem verifyToken_resolves_deleted_user_token :
    (User.findById 7
        { rows := [⟨7, "d@x.com", none, "D", "E", "D E", "", "hoteluser", true, true,
                    "email", none, true, 0, none, 0⟩], nextId := 8 } = none)
    ∧ (verifyToken (fun _ => none)
        (fun _ => some { id := 7, email := "d@x.com", role := "hoteluser" })
        (some "Bearer tok7")
        = (.ok (.jwt { id := 7, email := "d@x.com", role := "hoteluser" }),
           [.fbVer, .jwtVer])) :=
  ⟨rfl, rfl⟩

/-- Claim C7 (amended): the store lookups `findByEmail`, `findById` and
`findByFirebaseUid` never return a row that is inactive or deleted, and the
part_004 `authMiddleware` (outside the dev-token bypass) rejects with 401
both a locally signed JWT whose user does not resolve through `findById`
and an externally verified token whose subject does not resolve through
`findByFirebaseUid` — but `verifyToken` in middleware/auth.js performs no
store lookup, so a valid locally signed token still resolves for a deleted
or inactive user there. The first middleware scenario (oracles `jv`, `fbv`,
header `h`) is a JWT that verifies to `p` with no resolvable user; the
second (oracles `jv2`, `fbv2`, header `h2`) is a token the JWT check
rejects, the external provider verifies to subject `uid2`, and no local
user is linked to that subject. -/
theorem lookups_and_authMiddleware_exclude_inactive_or_deleted
    (s : Store) (q : String) (i : Nat) (fuid : String)
    (env : String) (jv : String → Option JwtPayload) (fbA : Bool)
    (fbv : String → Option String) (h t : String) (p : JwtPayload)
    (jv2 : String → Option JwtPayload) (fbv2 : String → Option String)
    (h2 t2 uid2 : String)
    (hb : jsStartsWith h "Bearer " = true) (hd : jsDrop h 7 = t)
    (hdev : (env == "development" && jsStartsWith t "dev-test-token-") = false)
    (hjv : jv t = some p) (hfind : User.findById p.id s = none)
    (hb2 : jsStartsWith h2 "Bearer " = true) (hd2 : jsDrop h2 7 = t2)
    (hdev2 : (env == "development" && jsStartsWith t2 "dev-test-token-") = false)
    (hjv2 : jv2 t2 = none) (hfb2 : fbv2 t2 = some uid2)
    (hlook2 : User.findByFirebaseUid uid2 s = none) :
    (∀ r, User.findByEmail q s = some r → r.isActive = true ∧ r.isDeleted = false)
    ∧ (∀ r, User.findById i s = some r → r.isActive = true ∧ r.isDeleted = false)
    ∧ (∀ r, User.findByFirebaseUid fuid s = some r → r.isActive = true ∧ r.isDeleted = false)
    ∧ (authMiddleware env jv fbA fbv s (some h)).1
        = .denied 401 "User account not found or inactive"
    ∧ (authMiddleware env jv2 true fbv2 s (some h2)).1
        = .denied 401 "User not found for Firebase token" := by
  refine ⟨?_, ?_, ?_, ?_, ?_⟩
  · intro r hr
    have := List.find?_some hr
    simp only [Bool.and_eq_true, Bool.not_eq_true'] at this
    exact ⟨this.1.2, this.2⟩
  · intro r hr
    have := List.find?_some hr
    simp only [Bool.and_eq_true, Bool.not_eq_true'] at this
    exact ⟨this.1.2, this.2⟩
  · intro r hr
    unfold User.findByFirebaseUid at hr
    by_cases hfe : fuid.isEmpty
    · simp [hfe] at hr
    · simp only [hfe, Bool.false_eq_true, if_false] at hr
      have := List.find?_some hr
      simp only [Bool.and_eq_true, Bool.not_eq_true'] at this
      exact ⟨this.1.2, this.2⟩
  · unfold authMiddleware
    simp only [hb, hd, hdev, hjv, hfind, Bool.not_true, Bool.false_eq_true, if_false]
  · unfold authMiddleware
    simp only [hb2, hd2, hdev2, hjv2, hfb2, hlook2, Bool.not_true, Bool.false_eq_true,
      if_false, if_true]

/-- Witness for C7 (amended), at a store whose only row is the soft-deleted
user with id 7: a JWT oracle accepting a token for that user (first
scenario) and an external oracle verifying a second token to the unlinked
subject fu2 (second scenario) are both rejected with 401. -/
theorem lookups_and_authMiddleware_exclude_inactive_or_deleted_witness :
    (jsStartsWith "Bearer tok7x" "Bearer " = true)
    ∧ (jsDrop "Bearer tok7x" 7 = "tok7x")
    ∧ (("production" == "development" && jsStartsWith "tok7x" "dev-test-token-") = false)
    ∧ ((fun (_ : String) => some (JwtPayload.mk 7 "d@x.com" "hoteluser")) "tok7x"
        = some (JwtPayload.mk 7 "d@x.com" "hoteluser"))
    ∧ (User.findById 7 (Store.mk [⟨7, "d@x.com", none, "D", "E", "D E", "", "hoteluser",
        true, true, "email", none, true, 0, none, 0⟩] 8) = none)
    ∧ (jsStartsWith "Bearer tokFbX" "Bearer " = true)
    ∧ (jsDrop "Bearer tokFbX" 7 = "tokFbX")
    ∧ (("production" == "development" && jsStartsWith "tokFbX" "dev-test-token-") = false)
    ∧ ((fun (_ : String) => (none : Option JwtPayload)) "tokFbX" = none)
    ∧ ((fun (_ : String) => some "fu2") "tokFbX" = some "fu2")
    ∧ (User.findByFirebaseUid "fu2" (Store.mk [⟨7, "d@x.com", none, "D", "E", "D E", "",
        "hoteluser", true, true, "email", none, true, 0, none, 0⟩] 8) = none)
    ∧ ((∀ r, User.findByEmail "d@x.com" (Store.mk [⟨7, "d@x.com", none, "D", "E", "D E", "",
          "hoteluser", true, true, "email", none, true, 0, none, 0⟩] 8) = some r →
          r.isActive = true ∧ r.isDeleted = false)
      ∧ (∀ r, User.findById 7 (Store.mk [⟨7, "d@x.com", none, "D", "E", "D E", "",
          "hoteluser", true, true, "email", none, true, 0, none, 0⟩] 8) = some r →
          r.isActive = true ∧ r.isDeleted = false)
      ∧ (∀ r, User.findByFirebaseUid "fu" (Store.mk [⟨7, "d@x.com", none, "D", "E", "D E", "",
          "hoteluser", true, true, "email", none, true, 0, none, 0⟩] 8) = some r →
          r.isActive = true ∧ r.isDeleted = false)
      ∧ (authMiddleware "production"
          (fun _ => some (JwtPayload.mk 7 "d@x.com" "hoteluser")) false (fun _ => none)
          (Store.mk [⟨7, "d@x.com", none, "D", "E", "D E", "", "hoteluser",
            true, true, "email", none, true, 0, none, 0⟩] 8) (some "Bearer tok7x")).1
          = .denied 401 "User account not found or inactive"
      ∧ (authMiddleware "production"
          (fun _ => (none : Option JwtPayload)) true (fun _ => some "fu2")
          (Store.mk [⟨7, "d@x.com", none, "D", "E", "D E", "", "hoteluser",
            true, true, "email", none, true, 0, none, 0⟩] 8) (some "Bearer tokFbX")).1
          = .denied 401 "User not found for Firebase token") :=
  ⟨rfl, rfl, rfl, rfl, rfl, rfl, rfl, rfl, rfl, rfl, rfl,
   lookups_and_authMiddleware_exclude_inactive_or_deleted
     (Store.mk [⟨7, "d@x.com", none, "D", "E", "D E", "", "hoteluser",
       true, true, "email", none, true, 0, none, 0⟩] 8)
     "d@x.com" 7 "fu" "production"
     (fun _ => some (JwtPayload.mk 7 "d@x.com" "hoteluser")) false (fun _ => none)
     "Bearer tok7x" "tok7x" (JwtPayload.mk 7 "d@x.com" "hoteluser")
     (fun _ => (none : Option JwtPayload)) (fun _ => some "fu2")
     "Bearer tokFbX" "tokFbX" "fu2"
     rfl rfl rfl rfl rfl rfl rfl rfl rfl rfl rfl⟩

/-- Claim C8 (confirmed): for every store, threshold and time, the sweep
returns the number of rows matching the orphan predicate, every touched row
is marked deleted so that nothing in the resulting table matches any more,
and an immediately repeated sweep with the same threshold returns 0. -/
theorem cleanupOrphanedUsers_idempotent (d now : Nat) (s : Store) :
    (User.cleanupOrphanedUsers d now s).2
        = (s.rows.filter (User.orphanMatch d now)).length
      ∧ ((User.cleanupOrphanedUsers d now s).1.rows.filter (User.orphanMatch d now)) = []
      ∧ (User.cleanupOrphanedUsers d now (User.cleanupOrphanedUsers d now s).1).2 = 0 := by
  refine ⟨rfl, orphan_filter_after_mark d now s.rows, ?_⟩
  show ((User.cleanupOrphanedUsers d now s).1.rows.filter (User.orphanMatch d now)).length = 0
  have hrows : (User.cleanupOrphanedUsers d now s).1.rows
      = s.rows.map (fun r =>
          if User.orphanMatch d now r then { r with isDeleted := true } else r) := rfl
  rw [hrows, orphan_filter_after_mark d now s.rows]
  rfl

/-- Claim C9 (confirmed): in development mode, any bearer token whose text
begins with dev-test-token- makes `authMiddleware` resolve to the fixed
identity with id 1 and role superadmin, with an empty attempt trace — no
signature verification and no store lookup of any kind. -/
theorem authMiddleware_devTestToken_bypass
    (jv : String → Option JwtPayload) (fbA : Bool) (fbv : String → Option String)
    (s : Store) (h t : String)
    (hb : jsStartsWith h "Bearer " = true) (hd : jsDrop h 7 = t)
    (ht : jsStartsWith t "dev-test-token-" = true) :
    authMiddleware "development" jv fbA fbv s (some h)
      = (.ok { id := 1, email := "admin@nuvho.com", role := "superadmin", firebaseUid := none },
         []) := by
  unfold authMiddleware
  simp only [hb, hd, ht, Bool.not_true, Bool.false_eq_true, if_false]
  simp

/-- Witness for C9, at a concrete development-mode test token over an empty
store with oracles that reject everything. -/
theorem authMiddleware_devTestToken_bypass_witness :
    (jsStartsWith "Bearer dev-test-token-1" "Bearer " = true)
    ∧ (jsDrop "Bearer dev-test-token-1" 7 = "dev-test-token-1")
    ∧ (jsStartsWith "dev-test-token-1" "dev-test-token-" = true)
    ∧ (authMiddleware "development" (fun _ => none) false (fun _ => none)
        (Store.mk [] 1) (some "Bearer dev-test-token-1")
        = (.ok { id := 1, email := "admin@nuvho.com", role := "superadmin",
                 firebaseUid := none }, [])) :=
  ⟨rfl, rfl, rfl,
   authMiddleware_devTestToken_bypass (fun _ => none) false (fun _ => none)
     (Store.mk [] 1) "Bearer dev-test-token-1" "dev-test-token-1" rfl rfl rfl⟩

/-- Claim C10 (confirmed): the `login` failure response for an unknown email
is the identical response object (status 401, message Invalid credentials)
as the one for a known email with a wrong password, so the response does not
reveal whether an account exists for that email. -/
theorem login_unknown_email_indistinguishable
    (s : Store) (now : Nat) (e1 p1 e2 p2 : Option String) (u : UserRow)
    (h1 : truthy e1 = true) (h2 : truthy p1 = true)
    (h3 : truthy e2 = true) (h4 : truthy p2 = true)
    (hu1 : User.findByEmail (e1.getD "") s = none)
    (hu2 : User.findByEmail (e2.getD "") s = some u)
    (hpw : User.validatePassword u (p2.getD "") = false) :
    (login e1 p1 now s).2 = (login e2 p2 now s).2
    ∧ (login e1 p1 now s).2.status = 401
    ∧ (login e1 p1 now s).2.message = "Invalid credentials" := by
  unfold login
  simp [h1, h2, h3, h4, hu1, hu2, hpw]

/-- Witness for C10, at a store with one user (email b@x.com, password
right1): logging in with an unknown email and with the known email but the
wrong password yield the same 401 response. -/
theorem login_unknown_email_indistinguishable_witness :
    (truthy (some "a@x.com") = true) ∧ (truthy (some "whatever1") = true)
    ∧ (truthy (some "b@x.com") = true) ∧ (truthy (some "wrong1") = true)
    ∧ (User.findByEmail "a@x.com"
        (Store.mk [⟨1, "b@x.com", some (bcryptHash "right1"), "B", "C", "B C", "",
          "hoteluser", true, false, "email", none, false, 0, none, 0⟩] 2) = none)
    ∧ (User.findByEmail "b@x.com"
        (Store.mk [⟨1, "b@x.com", some (bcryptHash "right1"), "B", "C", "B C", "",
          "hoteluser", true, false, "email", none, false, 0, none, 0⟩] 2)
        = some ⟨1, "b@x.com", some (bcryptHash "right1"), "B", "C", "B C", "",
          "hoteluser", true, false, "email", none, false, 0, none, 0⟩)
    ∧ (User.validatePassword ⟨1, "b@x.com", some (bcryptHash "right1"), "B", "C", "B C", "",
          "hoteluser", true, false, "email", none, false, 0, none, 0⟩ "wrong1" = false)
    ∧ ((login (some "a@x.com") (some "whatever1") 9
          (Store.mk [⟨1, "b@x.com", some (bcryptHash "right1"), "B", "C", "B C", "",
            "hoteluser", true, false, "email", none, false, 0, none, 0⟩] 2)).2
        = (login (some "b@x.com") (some "wrong1") 9
          (Store.mk [⟨1, "b@x.com", some (bcryptHash "right1"), "B", "C", "B C", "",
            "hoteluser", true, false, "email", none, false, 0, none, 0⟩] 2)).2
      ∧ (login (some "a@x.com") (some "whatever1") 9
          (Store.mk [⟨1, "b@x.com", some (bcryptHash "right1"), "B", "C", "B C", "",
            "hoteluser", true, false, "email", none, false, 0, none, 0⟩] 2)).2.status = 401
      ∧ (login (some "a@x.com") (some "whatever1") 9
          (Store.mk [⟨1, "b@x.com", some (bcryptHash "right1"), "B", "C", "B C", "",
            "hoteluser", true, false, "email", none, false, 0, none, 0⟩] 2)).2.message
          = "Invalid credentials") :=
  ⟨rfl, rfl, rfl, rfl, rfl, rfl, rfl,
   login_unknown_email_indistinguishable
     (Store.mk [⟨1, "b@x.com", some (bcryptHash "right1"), "B", "C", "B C", "",
       "hoteluser", true, false, "email", none, false, 0, none, 0⟩] 2) 9
     (some "a@x.com") (some "whatever1") (some "b@x.com") (some "wrong1")
     ⟨1, "b@x.com", some (bcryptHash "right1"), "B", "C", "B C", "",
       "hoteluser", true, false, "email", none, false, 0, none, 0⟩
     rfl rfl rfl rfl rfl rfl rfl⟩

end Nuvho
